import Mathlib

set_option linter.unusedVariables false

/-!
Shallow embedding of the llmwhisperer-js-client library (LLMWhispererClient and
LLMWhispererClientV2 from the single source module), together with proofs about
the asynchronous job-completion protocol, submission validation, error wrapping,
result-field reconciliation and the webhook management calls.

Modelling conventions:
* JSON object payloads that the client only passes through are modelled as flat
  association lists (`Extraction`); the empty JS object is the empty list.
* A JS object property that may be absent is an `Option` field; `none` models
  `undefined` / property not present.
* The HTTP transport (axios) is modelled by explicit environment records that
  carry the wire responses.  axios default behaviour is kept: a response with a
  2xx status resolves, any other status rejects with an error object carrying
  the response (status and data); a transport-level failure rejects with an
  error carrying a message and no response.
* A thrown `LLMWhispererClientException` is an `Except.error` value.  The
  `catch` blocks of the source rewrap any error `e` as
  `LLMWhispererClientException(e.response ? e.response.data.message : e.message,
  e.response ? e.response.status : -1)`; since a `LLMWhispererClientException`
  has no `response` property, an exception thrown inside a `try` block is
  rewrapped with statusCode `-1`.
* Wall-clock time of the V2 polling loop is abstract: `elapsed i` is the number
  of seconds elapsed (since loop entry) observed at the top of iteration `i`.
* The unbounded `while (true)` polling loop is given explicit fuel and returns
  `none` when the fuel runs out; theorems supply sufficient fuel.
-/

namespace LLMWhisperer

/-- Flat model of a JSON object payload that the client passes through
(extracted content, webhook bodies, ...).  `[]` is the empty object. -/
abbrev Extraction := List (String × String)

/-- Exception type `LLMWhispererClientException(message, statusCode)`. -/
structure ClientException where
  message : String
  statusCode : Int
  deriving DecidableEq, Repr

/-- axios default `validateStatus`: a response resolves exactly when its
status is in the 2xx range. -/
def validStatus (s : Int) : Prop := 200 ≤ s ∧ s < 300

instance (s : Int) : Decidable (validStatus s) :=
  inferInstanceAs (Decidable (200 ≤ s ∧ s < 300))

/-- Message of the error axios rejects with when a response has a non-2xx
status. -/
def axiosFailMessage (s : Int) : String :=
  "Request failed with status code " ++ toString s

/-- Wire response to a `GET /whisper-status` call: HTTP status plus the
`status` and `message` fields of the JSON body. -/
structure StatusWire where
  status : Int
  body_status : String
  body_message : String
  deriving DecidableEq, Repr

/-- Wire response to a `GET /whisper-retrieve` call: HTTP status, the JSON
body (the extraction payload on success) and the body `message` field used
when the status is not 2xx. -/
structure RetrieveWire where
  status : Int
  data : Extraction
  body_message : String
  deriving DecidableEq, Repr

/-- Value returned by `LLMWhispererClientV2.whisperStatus`: the response body
with the HTTP status attached as `statusCode`. -/
structure StatusMsg where
  statusCode : Int
  status : String
  message : String
  deriving DecidableEq, Repr

/-- Value returned by `LLMWhispererClientV2.whisperRetrieve`. -/
structure RetrieveMsg where
  statusCode : Int
  extraction : Extraction
  deriving DecidableEq, Repr

/-- Model of `LLMWhispererClientV2.whisperStatus`: on a 2xx response returns the body
with `statusCode` attached; otherwise the catch block rethrows a
`LLMWhispererClientException` carrying the body message and the HTTP status. -/
def whisperStatus_v2 (w : StatusWire) : Except ClientException StatusMsg :=
  if validStatus w.status then
    .ok ⟨w.status, w.body_status, w.body_message⟩
  else
    .error ⟨w.body_message, w.status⟩

/-- Model of `LLMWhispererClientV2.whisperRetrieve`: on a 2xx response returns
`{statusCode, extraction: response.data}`; otherwise throws a
`LLMWhispererClientException` carrying the body message and the HTTP status. -/
def whisperRetrieve_v2 (w : RetrieveWire) : Except ClientException RetrieveMsg :=
  if validStatus w.status then
    .ok ⟨w.status, w.data⟩
  else
    .error ⟨w.body_message, w.status⟩

/-- The mutable `message` object built by `LLMWhispererClientV2.whisper` on
the 202 path.  Every field is optional: `none` models a property that is not
present on the JS object. -/
structure WhisperResult where
  statusCode : Option Int := none
  status_code : Option Int := none
  message : Option String := none
  status : Option String := none
  whisper_hash : Option String := none
  extraction : Option Extraction := none
  deriving DecidableEq, Repr

/-- JSON body of a 202 (accepted) whisper submission response, and of error
bodies: `whisper_hash`, `status` and `message` fields. -/
structure WhisperBody where
  whisper_hash : String
  status : String
  message : String
  deriving DecidableEq, Repr

/-- Options of `LLMWhispererClientV2.whisper` that the control flow reads
(the remaining tuning options only travel inside the request parameters). -/
structure WhisperOptionsV2 where
  filePath : String := ""
  url : String := ""
  mode : String := "high_quality"
  outputMode : String := "line-printer"
  waitForCompletion : Bool := false
  waitTimeout : Nat := 180
  deriving DecidableEq, Repr

/-- Network environment of one `LLMWhispererClientV2.whisper` call:
the submission response (`submitStatus = none` models a transport-level
failure with message `submitFailMessage`; on 200 the body is the content
`submitContent`, otherwise the JSON object `submitBody`), the wire responses
of the successive status polls, the retrieve response, and the wall clock
`elapsed` (seconds since loop entry at the top of iteration `i`). -/
structure WhisperEnvV2 where
  submitStatus : Option Int
  submitBody : WhisperBody
  submitContent : Extraction
  submitFailMessage : String
  statusWire : Nat → StatusWire
  retrieveWire : RetrieveWire
  elapsed : Nat → Nat

/-- The `while (true)` completion-polling loop of
`LLMWhispererClientV2.whisper` (source lines 528-575).  `i` is the iteration
index, `fuel` bounds the number of iterations (`none` = fuel exhausted; the
real loop always terminates because the 5 second sleep makes `elapsed`
eventually exceed `waitTimeout`).  An `Except.error` is an exception thrown
out of the loop (by `whisperStatus`, `whisperRetrieve`, or the
delivered/unknown branches), to be rewrapped by the outer catch. -/
def pollLoop (env : WhisperEnvV2) (waitTimeout : Nat) (msg : WhisperResult) :
    Nat → Nat → Option (Except ClientException WhisperResult)
  | _, 0 => none
  | i, fuel + 1 =>
    if env.elapsed i > waitTimeout then
      some (.ok { msg with
        extraction := some [],
        status_code := some (-1),
        message := some "Whisper client operation timed out" })
    else
      match whisperStatus_v2 (env.statusWire i) with
      | .error e => some (.error e)
      | .ok st =>
        if st.statusCode ≠ 200 then
          some (.ok { msg with
            extraction := some [],
            status_code := some st.statusCode,
            message := some "Whisper client operation failed" })
        else if st.status = "processing" then
          pollLoop env waitTimeout msg (i + 1) fuel
        else if st.status = "delivered" then
          some (.error ⟨"Whisper operation already delivered", -1⟩)
        else if st.status = "unknown" then
          some (.error ⟨"Whisper operation status unknown", -1⟩)
        else if st.status = "failed" then
          some (.ok { msg with
            extraction := some [],
            status_code := some (-1),
            message := some "Whisper client operation failed" })
        else if st.status = "processed" then
          match whisperRetrieve_v2 env.retrieveWire with
          | .error e => some (.error e)
          | .ok rr => some (.ok { msg with
              status_code := some 200,
              message := some "Whisper operation completed",
              status := some "processed",
              extraction := some rr.extraction })
        else
          pollLoop env waitTimeout msg (i + 1) fuel

/-- Status-code field reconciliation after the polling loop (source lines
576-583): if the canonical `status_code` is present, the legacy `statusCode`
is deleted; otherwise, if only the legacy `statusCode` is present, it is
renamed to `status_code`. -/
def reconcile (m : WhisperResult) : WhisperResult :=
  if m.status_code.isSome then
    { m with statusCode := none }
  else if m.statusCode.isSome then
    { m with status_code := m.statusCode, statusCode := none }
  else
    m

/-- The result object built from a 202 response body before any waiting
(source lines 520-522): the body with `statusCode := 202` attached and
`extraction` set to the empty object. -/
def acceptedMessage (body : WhisperBody) : WhisperResult :=
  { statusCode := some 202,
    message := some body.message,
    status := some body.status,
    whisper_hash := some body.whisper_hash,
    extraction := some [] }

/-- Model of `LLMWhispererClientV2.whisper`.  Result value:
`some (.error e)` models a thrown `LLMWhispererClientException e`;
`some (.ok (some m))` a normal return of the object `m`;
`some (.ok none)` a normal return of `undefined` (the 200 path of the source
falls through the `try` block without a `return` statement);
`none` means the loop fuel ran out. -/
def whisper_v2 (opts : WhisperOptionsV2) (env : WhisperEnvV2) (fuel : Nat) :
    Option (Except ClientException (Option WhisperResult)) :=
  if opts.url = "" ∧ opts.filePath = "" then
    some (.error ⟨"Either url or filePath must be provided", -1⟩)
  else
    match env.submitStatus with
    | none => some (.error ⟨env.submitFailMessage, -1⟩)
    | some s =>
      if ¬ validStatus s then
        some (.error ⟨env.submitBody.message, s⟩)
      else if s ≠ 200 ∧ s ≠ 202 then
        some (.error ⟨env.submitBody.message, -1⟩)
      else if s = 202 then
        let msg := acceptedMessage env.submitBody
        if opts.waitForCompletion = false then
          some (.ok (some msg))
        else
          match pollLoop env opts.waitTimeout msg 0 fuel with
          | none => none
          | some (.error e) => some (.error ⟨e.message, -1⟩)
          | some (.ok m) => some (.ok (some (reconcile m)))
      else
        some (.ok none)

/-- Options of `LLMWhispererClient.whisper` (legacy client) that the control
flow reads. -/
structure WhisperOptionsV1 where
  filePath : String := ""
  url : String := ""
  timeout : Int := 200
  deriving DecidableEq, Repr

/-- Network environment of one `LLMWhispererClient.whisper` call; the legacy
client carries the job handle in the `whisper-hash` response header. -/
structure WhisperEnvV1 where
  submitStatus : Option Int
  submitBody : WhisperBody
  submitContent : Extraction
  submitFailMessage : String
  whisperHashHeader : String

/-- Result of `LLMWhispererClient.whisper` (legacy client): on 200 the
extracted content plus the `whisper-hash` header; on 202 the response body
with `statusCode` attached. -/
structure LegacyWhisperResult where
  statusCode : Int
  extracted_text : Option Extraction := none
  whisper_hash : Option String := none
  status : Option String := none
  message : Option String := none
  deriving DecidableEq, Repr

/-- Model of `LLMWhispererClient.whisper` (legacy client, source lines 131-227). -/
def whisper_v1 (opts : WhisperOptionsV1) (env : WhisperEnvV1) :
    Except ClientException LegacyWhisperResult :=
  if opts.url = "" ∧ opts.filePath = "" then
    .error ⟨"Either url or filePath must be provided", -1⟩
  else if opts.timeout < 0 ∨ opts.timeout > 200 then
    .error ⟨"timeout must be between 0 and 200", -1⟩
  else
    match env.submitStatus with
    | none => .error ⟨env.submitFailMessage, -1⟩
    | some s =>
      if ¬ validStatus s then
        .error ⟨env.submitBody.message, s⟩
      else if s ≠ 200 ∧ s ≠ 202 then
        .error ⟨env.submitBody.message, -1⟩
      else if s = 202 then
        .ok { statusCode := 202,
              status := some env.submitBody.status,
              message := some env.submitBody.message,
              whisper_hash := some env.submitBody.whisper_hash }
      else
        .ok { statusCode := 200,
              extracted_text := some env.submitContent,
              whisper_hash := some env.whisperHashHeader }

/-- JSON body of a webhook-management response; the non-200 throw reads its
`message` field and the 200 path passes the whole body through. -/
structure WebhookData where
  message : String
  deriving DecidableEq, Repr

/-- Wire response of one webhook-management call: `outcome = none` is a
transport-level failure with message `failMessage`, `outcome = some s` a
response with HTTP status `s` and body `data`. -/
structure WebhookWire where
  outcome : Option Int
  data : WebhookData
  failMessage : String
  deriving DecidableEq, Repr

/-- Success value of a webhook-management call:
`{ status_code: response.status, message: response.data }`. -/
structure WebhookResult where
  status_code : Int
  message : WebhookData
  deriving DecidableEq, Repr

/-- Outcome of a webhook-management call.  `clientError` is a thrown
`LLMWhispererClientException`; `axiosError` is a raw axios rejection that
escapes unwrapped because `registerWebhook` and `getWebhookDetails` have no
try/catch block. -/
inductive WebhookOutcome where
  | ok (r : WebhookResult)
  | clientError (e : ClientException)
  | axiosError (status : Option Int) (message : String)
  deriving DecidableEq, Repr

/-- Shared control flow of `LLMWhispererClientV2.registerWebhook` and
`LLMWhispererClientV2.getWebhookDetails`: `await axios(options)` with no
surrounding try/catch, then `if (response.status !== 200) throw
LLMWhispererClientException(data.message, status) else return
{status_code, message: data}`. -/
def webhookCall (w : WebhookWire) : WebhookOutcome :=
  match w.outcome with
  | none => .axiosError none w.failMessage
  | some s =>
    if ¬ validStatus s then
      .axiosError (some s) (axiosFailMessage s)
    else if s ≠ 200 then
      .clientError ⟨w.data.message, s⟩
    else
      .ok ⟨s, w.data⟩

/-- Model of `LLMWhispererClientV2.registerWebhook` (source lines 676-704). -/
def registerWebhook (w : WebhookWire) : WebhookOutcome := webhookCall w

/-- Model of `LLMWhispererClientV2.getWebhookDetails` (source lines 716-739). -/
def getWebhookDetails (w : WebhookWire) : WebhookOutcome := webhookCall w

/-- Default base URL of the legacy client. -/
def BASE_URL : String := "https://llmwhisperer-api.unstract.com/v1"

/-- Default base URL of the V2 client. -/
def BASE_URL_V2 : String := "https://llmwhisperer-api.us-central.unstract.com/api/v2"

/-- JS `a || b` on strings: the empty string is falsy. -/
def jsOr (a b : String) : String := if a = "" then b else a

/-- Client instance state relevant to request building.  `apiTimeout = none`
models the property not being set by the constructor (reading it yields
`undefined`). -/
structure ClientState where
  baseUrl : String
  apiKey : String
  apiTimeout : Option Int
  deriving DecidableEq, Repr

/-- Constructor `new LLMWhispererClient(config)` with the
environment variables passed explicitly; `apiTimeout` defaults to 120 and is
always stored. -/
def mkClientV1 (baseUrl apiKey : String) (apiTimeout : Int)
    (envBaseUrl envApiKey : String) : ClientState :=
  { baseUrl := jsOr baseUrl (jsOr envBaseUrl BASE_URL),
    apiKey := jsOr apiKey (jsOr envApiKey ""),
    apiTimeout := some apiTimeout }

/-- Constructor `new LLMWhispererClientV2(config)`: the
constructor stores `baseUrl`, `apiKey` and the headers — it never sets
`apiTimeout`. -/
def mkClientV2 (baseUrl apiKey : String) (envBaseUrlV2 envApiKey : String) :
    ClientState :=
  { baseUrl := jsOr baseUrl (jsOr envBaseUrlV2 BASE_URL_V2),
    apiKey := jsOr apiKey (jsOr envApiKey ""),
    apiTimeout := none }

/-- The per-request timeout `this.apiTimeout * 1000` passed to axios:
`none` models `undefined * 1000 = NaN`, i.e. no finite timeout. -/
def requestTimeoutMs (c : ClientState) : Option Int :=
  c.apiTimeout.map (fun t => t * 1000)

/-- The axios request configuration fields modelled for the simple GET
operations: target URL, query parameters and the per-request timeout. -/
structure RequestConfig where
  url : String
  params : List (String × String)
  timeoutMs : Option Int
  deriving DecidableEq, Repr

/-- Request built by `LLMWhispererClientV2.getUsageInfo`. -/
def v2GetUsageInfoRequest (c : ClientState) : RequestConfig :=
  ⟨c.baseUrl ++ "/get-usage-info", [], requestTimeoutMs c⟩

/-- Request built by `LLMWhispererClientV2.whisperStatus`. -/
def v2WhisperStatusRequest (c : ClientState) (whisperHash : String) :
    RequestConfig :=
  ⟨c.baseUrl ++ "/whisper-status", [("whisper_hash", whisperHash)],
    requestTimeoutMs c⟩

/-- Request built by `LLMWhispererClientV2.whisperRetrieve`. -/
def v2WhisperRetrieveRequest (c : ClientState) (whisperHash : String) :
    RequestConfig :=
  ⟨c.baseUrl ++ "/whisper-retrieve", [("whisper_hash", whisperHash)],
    requestTimeoutMs c⟩

end LLMWhisperer

deriving instance DecidableEq for Except

namespace LLMWhisperer

/-- Demo environment for the C1 witness: the first poll already reports
`processed` and the retrieve call yields a one-field payload. -/
def envC1demo : WhisperEnvV2 :=
  ⟨some 202, ⟨"h1", "processing", "whisper accepted"⟩, [], "netfail",
    fun _ => ⟨200, "processed", "ok"⟩,
    ⟨200, [("result_text", "hello")], "ok"⟩, fun _ => 0⟩

/-- Demo environment for the C2 witness: one second has elapsed at the first
poll, exceeding a zero wait budget. -/
def envC2demo : WhisperEnvV2 :=
  ⟨some 202, ⟨"h2", "processing", "accepted"⟩, [], "netfail",
    fun _ => ⟨200, "processing", "ok"⟩, ⟨200, [], "ok"⟩, fun _ => 1⟩

/-- Demo environment for the C6 witness: the first poll reports `failed`. -/
def envC6demo : WhisperEnvV2 :=
  ⟨some 202, ⟨"h6", "processing", "accepted"⟩, [], "netfail",
    fun _ => ⟨200, "failed", "boom"⟩, ⟨200, [], "ok"⟩, fun _ => 0⟩

/-- Demo environment for the C7 and C8 witnesses: a 202 submission response
with no waiting. -/
def envC8demo : WhisperEnvV2 :=
  ⟨some 202, ⟨"h8", "processing", "accepted"⟩, [], "netfail",
    fun _ => ⟨200, "processing", "ok"⟩, ⟨200, [], "ok"⟩, fun _ => 0⟩

/-- A status poll whose HTTP status is 200 returns the body with
`statusCode = 200`. -/
theorem whisperStatus_v2_ok (w : StatusWire) (h : w.status = 200) :
    whisperStatus_v2 w = .ok ⟨200, w.body_status, w.body_message⟩ := by
  rw [whisperStatus_v2, if_pos (by rw [h]; decide), h]

/-- One polling iteration on a non-terminal status (HTTP 200, body status not
delivered/unknown/failed/processed) sleeps and continues with the next
iteration. -/
theorem pollLoop_continue (env : WhisperEnvV2) (wt : Nat) (msg : WhisperResult)
    (i fuel : Nat)
    (ht : env.elapsed i ≤ wt)
    (hs : (env.statusWire i).status = 200)
    (hd : (env.statusWire i).body_status ≠ "delivered")
    (hu : (env.statusWire i).body_status ≠ "unknown")
    (hf : (env.statusWire i).body_status ≠ "failed")
    (hp : (env.statusWire i).body_status ≠ "processed") :
    pollLoop env wt msg i (fuel + 1) = pollLoop env wt msg (i + 1) fuel := by
  rw [pollLoop, if_neg (by omega), whisperStatus_v2_ok _ hs]
  simp only [ne_eq]
  rw [if_neg (by simp)]
  by_cases hpr : (env.statusWire i).body_status = "processing"
  · rw [if_pos hpr]
  · rw [if_neg hpr, if_neg hd, if_neg hu, if_neg hf, if_neg hp]

/-- One polling iteration whose elapsed wall clock exceeds the wait budget
exits with the timeout result. -/
theorem pollLoop_timeout_step (env : WhisperEnvV2) (wt : Nat)
    (msg : WhisperResult) (i fuel : Nat) (ht : env.elapsed i > wt) :
    pollLoop env wt msg i (fuel + 1) =
      some (.ok { msg with
                  extraction := some [],
                  status_code := some (-1),
                  message := some "Whisper client operation timed out" }) := by
  rw [pollLoop, if_pos ht]

/-- One polling iteration observing body status `failed` (HTTP 200, within
budget) exits with status code -1, the fixed failure message and an emptied
extraction. -/
theorem pollLoop_failed_step (env : WhisperEnvV2) (wt : Nat)
    (msg : WhisperResult) (i fuel : Nat)
    (ht : env.elapsed i ≤ wt)
    (hs : (env.statusWire i).status = 200)
    (hb : (env.statusWire i).body_status = "failed") :
    pollLoop env wt msg i (fuel + 1) =
      some (.ok { msg with
                  extraction := some [],
                  status_code := some (-1),
                  message := some "Whisper client operation failed" }) := by
  rw [pollLoop, if_neg (by omega), whisperStatus_v2_ok _ hs]
  simp only [ne_eq, hb]
  rw [if_neg (by simp), if_neg (by decide), if_neg (by decide),
    if_neg (by decide), if_pos trivial]

/-- One polling iteration observing body status `processed` (HTTP 200, within
budget) retrieves the result and exits with status code 200 and the retrieved
extraction. -/
theorem pollLoop_processed_step (env : WhisperEnvV2) (wt : Nat)
    (msg : WhisperResult) (i fuel : Nat) (rr : RetrieveMsg)
    (ht : env.elapsed i ≤ wt)
    (hs : (env.statusWire i).status = 200)
    (hb : (env.statusWire i).body_status = "processed")
    (hr : whisperRetrieve_v2 env.retrieveWire = .ok rr) :
    pollLoop env wt msg i (fuel + 1) =
      some (.ok { msg with
                  status_code := some 200,
                  message := some "Whisper operation completed",
                  status := some "processed",
                  extraction := some rr.extraction }) := by
  rw [pollLoop, if_neg (by omega), whisperStatus_v2_ok _ hs]
  simp only [ne_eq, hb]
  rw [if_neg (by simp), if_neg (by decide), if_neg (by decide),
    if_neg (by decide), if_neg (by decide), if_pos trivial, hr]

/-- Running the loop across `k` consecutive non-terminal polls (each within
the wait budget) is the same as starting it `k` iterations later. -/
theorem pollLoop_run (env : WhisperEnvV2) (wt : Nat) (msg : WhisperResult) :
    ∀ (k i fuel : Nat),
    (∀ j, j < k → env.elapsed (i + j) ≤ wt ∧
      (env.statusWire (i + j)).status = 200 ∧
      (env.statusWire (i + j)).body_status ≠ "delivered" ∧
      (env.statusWire (i + j)).body_status ≠ "unknown" ∧
      (env.statusWire (i + j)).body_status ≠ "failed" ∧
      (env.statusWire (i + j)).body_status ≠ "processed") →
    pollLoop env wt msg i (k + fuel) = pollLoop env wt msg (i + k) fuel := by
  intro k
  induction k with
  | zero => intro i fuel _; simp
  | succ k ih =>
    intro i fuel hpre
    have h0 := hpre 0 (by omega)
    simp only [Nat.add_zero] at h0
    have hstep : pollLoop env wt msg i (k + 1 + fuel) =
        pollLoop env wt msg (i + 1) (k + fuel) := by
      have : k + 1 + fuel = (k + fuel) + 1 := by omega
      rw [this]
      exact pollLoop_continue env wt msg i (k + fuel)
        h0.1 h0.2.1 h0.2.2.1 h0.2.2.2.1 h0.2.2.2.2.1 h0.2.2.2.2.2
    rw [hstep, ih (i + 1) fuel (fun j hj => by
      have := hpre (j + 1) (by omega)
      have harith : i + 1 + j = i + (j + 1) := by omega
      rw [harith]
      exact this)]
    congr 1
    omega

/-- Unfolding lemma: `whisper_v2` on a 202 response with waiting requested runs the polling
loop on `acceptedMessage`, rewraps a thrown exception with statusCode -1 and
reconciles the status-code fields of a returned object. -/
theorem whisper_v2_wait (opts : WhisperOptionsV2) (env : WhisperEnvV2)
    (fuel : Nat)
    (hsrc : ¬(opts.url = "" ∧ opts.filePath = ""))
    (hsubmit : env.submitStatus = some 202)
    (hwait : opts.waitForCompletion = true) :
    whisper_v2 opts env fuel =
      match pollLoop env opts.waitTimeout (acceptedMessage env.submitBody) 0 fuel with
      | none => none
      | some (.error e) => some (.error ⟨e.message, -1⟩)
      | some (.ok m) => some (.ok (some (reconcile m))) := by
  rw [whisper_v2, if_neg hsrc, hsubmit]
  simp only [hwait]
  rw [if_pos trivial, if_neg (by decide : ¬(true = false)),
    if_neg (not_not_intro (by decide : validStatus 202)),
    if_neg (by decide : ¬((202 : Int) ≠ 200 ∧ (202 : Int) ≠ 202))]

/-- Unfolding lemma: `whisper_v2` on a 202 response without waiting returns the accepted
body as-is (with `statusCode := 202` and an emptied extraction). -/
theorem whisper_v2_nowait (opts : WhisperOptionsV2) (env : WhisperEnvV2)
    (fuel : Nat)
    (hsrc : ¬(opts.url = "" ∧ opts.filePath = ""))
    (hsubmit : env.submitStatus = some 202)
    (hwait : opts.waitForCompletion = false) :
    whisper_v2 opts env fuel = some (.ok (some (acceptedMessage env.submitBody))) := by
  rw [whisper_v2, if_neg hsrc, hsubmit]
  simp only [hwait]
  rw [if_pos trivial, if_pos trivial,
    if_neg (not_not_intro (by decide : validStatus 202)),
    if_neg (by decide : ¬((202 : Int) ≠ 200 ∧ (202 : Int) ≠ 202))]

/-- After reconciliation the legacy `statusCode` field is gone unless both
fields were already absent. -/
theorem reconcile_no_legacy (m : WhisperResult) :
    (reconcile m).statusCode = none ∨ (reconcile m).status_code = none := by
  rw [reconcile]
  by_cases h1 : m.status_code.isSome
  · rw [if_pos h1]; left; rfl
  · rw [if_neg h1]
    by_cases h2 : m.statusCode.isSome
    · rw [if_pos h2]; left; rfl
    · rw [if_neg h2]; right; exact Option.not_isSome_iff_eq_none.mp h1

/-- When both status-code fields are present, reconciliation keeps the
canonical `status_code` value and deletes the legacy `statusCode`. -/
theorem reconcile_canonical_wins (m : WhisperResult)
    (h1 : m.status_code.isSome) (h2 : m.statusCode.isSome) :
    (reconcile m).status_code = m.status_code ∧ (reconcile m).statusCode = none := by
  rw [reconcile, if_pos h1]
  exact ⟨rfl, rfl⟩


/-- Running the loop from its entry across `k` consecutive non-terminal polls
within budget leaves `fuel - k` fuel at iteration `k`. -/
theorem pollLoop_run_from_zero (env : WhisperEnvV2) (wt : Nat)
    (msg : WhisperResult) (k fuel : Nat)
    (hpre : ∀ j, j < k → env.elapsed j ≤ wt ∧
      (env.statusWire j).status = 200 ∧
      (env.statusWire j).body_status ≠ "delivered" ∧
      (env.statusWire j).body_status ≠ "unknown" ∧
      (env.statusWire j).body_status ≠ "failed" ∧
      (env.statusWire j).body_status ≠ "processed")
    (hfuel : k ≤ fuel) :
    pollLoop env wt msg 0 fuel = pollLoop env wt msg k (fuel - k) := by
  have h1 : fuel = k + (fuel - k) := by omega
  conv_lhs => rw [h1]
  have h2 := pollLoop_run env wt msg k 0 (fuel - k)
    (fun j hj => by rw [Nat.zero_add]; exact hpre j hj)
  simpa using h2

/-- Claim C1: for every `waitForCompletion = true` submission of
`LLMWhispererClientV2.whisper` that receives a 202 response and whose polled
status reaches the terminal-success state `processed` before the wait budget
elapses, the returned result object's extraction payload equals the payload
returned by `whisperRetrieve` for that job handle, its `status_code` is 200
and its `status` field is `processed`. -/
theorem C1_wait_success_matches_retrieve
    (opts : WhisperOptionsV2) (env : WhisperEnvV2) (k fuel : Nat)
    (rr : RetrieveMsg)
    (hsrc : ¬(opts.url = "" ∧ opts.filePath = ""))
    (hwait : opts.waitForCompletion = true)
    (hsubmit : env.submitStatus = some 202)
    (hpre : ∀ j, j < k → (env.statusWire j).status = 200 ∧
      (env.statusWire j).body_status ≠ "delivered" ∧
      (env.statusWire j).body_status ≠ "unknown" ∧
      (env.statusWire j).body_status ≠ "failed" ∧
      (env.statusWire j).body_status ≠ "processed")
    (htime : ∀ j, j ≤ k → env.elapsed j ≤ opts.waitTimeout)
    (hks : (env.statusWire k).status = 200)
    (hkb : (env.statusWire k).body_status = "processed")
    (hret : whisperRetrieve_v2 env.retrieveWire = .ok rr)
    (hfuel : k < fuel) :
    ∃ m : WhisperResult,
      whisper_v2 opts env fuel = some (.ok (some m)) ∧
      m.extraction = some rr.extraction ∧
      m.status_code = some 200 ∧
      m.status = some "processed" := by
  have hrun := pollLoop_run_from_zero env opts.waitTimeout
    (acceptedMessage env.submitBody) k fuel
    (fun j hj => ⟨htime j (Nat.le_of_lt hj), hpre j hj⟩) (Nat.le_of_lt hfuel)
  have hfk : fuel - k = (fuel - k - 1) + 1 := by omega
  have hstep := pollLoop_processed_step env opts.waitTimeout
    (acceptedMessage env.submitBody) k (fuel - k - 1) rr
    (htime k le_rfl) hks hkb hret
  refine ⟨reconcile { acceptedMessage env.submitBody with
                      status_code := some 200,
                      message := some "Whisper operation completed",
                      status := some "processed",
                      extraction := some rr.extraction }, ?_, rfl, rfl, rfl⟩
  rw [whisper_v2_wait opts env fuel hsrc hsubmit hwait, hrun, hfk, hstep]

/-- Claim C2: for every `waitForCompletion = true` submission of
`LLMWhispererClientV2.whisper` whose wall-clock wait budget elapses before a
terminal state is observed, the call returns normally (an `Except.ok` result,
not a thrown exception) with `status_code = -1`, the fixed timeout message
and an empty extraction object. -/
theorem C2_wait_timeout_returns_result
    (opts : WhisperOptionsV2) (env : WhisperEnvV2) (k fuel : Nat)
    (hsrc : ¬(opts.url = "" ∧ opts.filePath = ""))
    (hwait : opts.waitForCompletion = true)
    (hsubmit : env.submitStatus = some 202)
    (hpre : ∀ j, j < k → env.elapsed j ≤ opts.waitTimeout ∧
      (env.statusWire j).status = 200 ∧
      (env.statusWire j).body_status ≠ "delivered" ∧
      (env.statusWire j).body_status ≠ "unknown" ∧
      (env.statusWire j).body_status ≠ "failed" ∧
      (env.statusWire j).body_status ≠ "processed")
    (hk : env.elapsed k > opts.waitTimeout)
    (hfuel : k < fuel) :
    ∃ m : WhisperResult,
      whisper_v2 opts env fuel = some (.ok (some m)) ∧
      m.status_code = some (-1) ∧
      m.message = some "Whisper client operation timed out" ∧
      m.extraction = some [] := by
  have hrun := pollLoop_run_from_zero env opts.waitTimeout
    (acceptedMessage env.submitBody) k fuel hpre (Nat.le_of_lt hfuel)
  have hfk : fuel - k = (fuel - k - 1) + 1 := by omega
  have hstep := pollLoop_timeout_step env opts.waitTimeout
    (acceptedMessage env.submitBody) k (fuel - k - 1) hk
  refine ⟨reconcile { acceptedMessage env.submitBody with
                      extraction := some [],
                      status_code := some (-1),
                      message := some "Whisper client operation timed out" },
    ?_, rfl, rfl, rfl⟩
  rw [whisper_v2_wait opts env fuel hsrc hsubmit hwait, hrun, hfk, hstep]

/-- Claim C3 (divergence witness): on a 200 submission response the legacy
client returns the extracted content with the job handle from the
`whisper-hash` header, but `LLMWhispererClientV2.whisper` falls through its
`try` block without a `return` statement and resolves to `undefined`
(modelled as `Except.ok none`), returning no payload at all. -/
theorem C3_v2_200_returns_undefined :
    whisper_v2 ⟨"sample.pdf", "", "high_quality", "line-printer", false, 180⟩
      ⟨some 200, ⟨"h1", "processed", "ok"⟩, [("result_text", "hello")],
        "netfail", fun _ => ⟨200, "processing", "ok"⟩, ⟨200, [], "ok"⟩,
        fun _ => 0⟩ 1 =
      some (.ok none) ∧
    whisper_v1 ⟨"sample.pdf", "", 200⟩
      ⟨some 200, ⟨"h1", "processing", "ok"⟩, [("text", "hello")], "netfail",
        "abc|123"⟩ =
      .ok ⟨200, some [("text", "hello")], some "abc|123", none, none⟩ := by
  exact ⟨by decide, by decide⟩

/-- Claim C4: a whisper call (either client) with both `filePath` and `url`
empty fails with a `LLMWhispererClientException` with statusCode -1, for
every network environment — that is, before any network request is
attempted. -/
theorem C4_missing_source_validation :
    ∀ (o1 : WhisperOptionsV1) (e1 : WhisperEnvV1) (o2 : WhisperOptionsV2)
      (e2 : WhisperEnvV2) (fuel : Nat),
      o1.url = "" → o1.filePath = "" → o2.url = "" → o2.filePath = "" →
      whisper_v1 o1 e1 = .error ⟨"Either url or filePath must be provided", -1⟩ ∧
      whisper_v2 o2 e2 fuel =
        some (.error ⟨"Either url or filePath must be provided", -1⟩) := by
  intro o1 e1 o2 e2 fuel hu1 hf1 hu2 hf2
  exact ⟨by rw [whisper_v1, if_pos ⟨hu1, hf1⟩],
    by rw [whisper_v2, if_pos ⟨hu2, hf2⟩]⟩

/-- Claim C5 (counterexample): a V2 submission answered with HTTP 201
(neither 200 nor 202) throws a `LLMWhispererClientException` whose
statusCode is -1, not the remote status 201: the throw inside the `try`
block is caught by the surrounding `catch`, and since a
`LLMWhispererClientException` has no `response` property it is rewrapped
with statusCode -1. -/
theorem C5_counterexample_201 :
    whisper_v2 ⟨"sample.pdf", "", "high_quality", "line-printer", false, 180⟩
      ⟨some 201, ⟨"h1", "accepted", "created"⟩, [], "netfail",
        fun _ => ⟨200, "processing", "ok"⟩, ⟨200, [], "ok"⟩, fun _ => 0⟩ 1 =
      some (.error ⟨"created", -1⟩) ∧
    (⟨"created", -1⟩ : ClientException).statusCode ≠ 201 := by
  exact ⟨by decide, by decide⟩

/-- Claim C5 as amended: a whisper submission (either client) whose response
status is outside the 2xx range fails with an exception carrying the remote
status code and the remote-supplied message, while a 2xx response other than
200/202 fails with the remote-supplied message but statusCode -1 (the
in-`try` throw is rewrapped by the catch block). -/
theorem C5_amended_remote_error :
    (∀ (opts : WhisperOptionsV2) (env : WhisperEnvV2) (fuel : Nat) (s : Int),
      ¬(opts.url = "" ∧ opts.filePath = "") →
      env.submitStatus = some s →
      (¬ validStatus s →
        whisper_v2 opts env fuel = some (.error ⟨env.submitBody.message, s⟩)) ∧
      (validStatus s → s ≠ 200 → s ≠ 202 →
        whisper_v2 opts env fuel =
          some (.error ⟨env.submitBody.message, -1⟩))) ∧
    (∀ (opts : WhisperOptionsV1) (env : WhisperEnvV1) (s : Int),
      ¬(opts.url = "" ∧ opts.filePath = "") →
      ¬(opts.timeout < 0 ∨ opts.timeout > 200) →
      env.submitStatus = some s →
      (¬ validStatus s →
        whisper_v1 opts env = .error ⟨env.submitBody.message, s⟩) ∧
      (validStatus s → s ≠ 200 → s ≠ 202 →
        whisper_v1 opts env = .error ⟨env.submitBody.message, -1⟩)) := by
  constructor
  · intro opts env fuel s hsrc hsubmit
    constructor
    · intro hv
      rw [whisper_v2, if_neg hsrc, hsubmit]
      simp only [if_pos hv]
    · intro hv h200 h202
      rw [whisper_v2, if_neg hsrc, hsubmit]
      simp only [if_neg (not_not_intro hv), if_pos (And.intro h200 h202)]
  · intro opts env s hsrc htmo hsubmit
    constructor
    · intro hv
      rw [whisper_v1, if_neg hsrc, if_neg htmo, hsubmit]
      simp only [if_pos hv]
    · intro hv h200 h202
      rw [whisper_v1, if_neg hsrc, if_neg htmo, hsubmit]
      simp only [if_neg (not_not_intro hv), if_pos (And.intro h200 h202)]

/-- Claim C6 (counterexample): a poll that observes the terminal-failure
status `failed` exits with the fixed client-side message
"Whisper client operation failed", not with the remote-supplied message
(here "boom"), refuting the claim that the result carries the remote's
message. -/
theorem C6_counterexample_fixed_message :
    (∃ m : WhisperResult,
      whisper_v2 ⟨"sample.pdf", "", "high_quality", "line-printer", true, 180⟩
        ⟨some 202, ⟨"h1", "processing", "accepted"⟩, [], "netfail",
          fun _ => ⟨200, "failed", "boom"⟩, ⟨200, [], "ok"⟩, fun _ => 0⟩ 5 =
        some (.ok (some m)) ∧
      m.message = some "Whisper client operation failed" ∧
      m.message ≠ some "boom") := by
  refine ⟨⟨none, some (-1), some "Whisper client operation failed",
    some "processing", some "h1", some []⟩, by decide, rfl, by decide⟩

/-- Claim C6 as amended: a poll that observes status `failed` (within budget)
exits the loop and the call returns a result with `status_code = -1`, the
fixed message "Whisper client operation failed" and an emptied extraction;
the status `error` is not recognised as terminal by the V2 loop — a poll
observing it sleeps and continues with the next iteration. -/
theorem C6_amended_failed_exits_fixed_message :
    (∀ (opts : WhisperOptionsV2) (env : WhisperEnvV2) (k fuel : Nat),
      ¬(opts.url = "" ∧ opts.filePath = "") →
      opts.waitForCompletion = true →
      env.submitStatus = some 202 →
      (∀ j, j < k → env.elapsed j ≤ opts.waitTimeout ∧
        (env.statusWire j).status = 200 ∧
        (env.statusWire j).body_status ≠ "delivered" ∧
        (env.statusWire j).body_status ≠ "unknown" ∧
        (env.statusWire j).body_status ≠ "failed" ∧
        (env.statusWire j).body_status ≠ "processed") →
      env.elapsed k ≤ opts.waitTimeout →
      (env.statusWire k).status = 200 →
      (env.statusWire k).body_status = "failed" →
      k < fuel →
      ∃ m : WhisperResult,
        whisper_v2 opts env fuel = some (.ok (some m)) ∧
        m.status_code = some (-1) ∧
        m.message = some "Whisper client operation failed" ∧
        m.extraction = some []) ∧
    (∀ (env : WhisperEnvV2) (wt : Nat) (msg : WhisperResult) (i fuel : Nat),
      env.elapsed i ≤ wt →
      (env.statusWire i).status = 200 →
      (env.statusWire i).body_status = "error" →
      pollLoop env wt msg i (fuel + 1) = pollLoop env wt msg (i + 1) fuel) := by
  constructor
  · intro opts env k fuel hsrc hwait hsubmit hpre htk hks hkb hfuel
    have hrun := pollLoop_run_from_zero env opts.waitTimeout
      (acceptedMessage env.submitBody) k fuel hpre (Nat.le_of_lt hfuel)
    have hfk : fuel - k = (fuel - k - 1) + 1 := by omega
    have hstep := pollLoop_failed_step env opts.waitTimeout
      (acceptedMessage env.submitBody) k (fuel - k - 1) htk hks hkb
    refine ⟨reconcile { acceptedMessage env.submitBody with
                        extraction := some [],
                        status_code := some (-1),
                        message := some "Whisper client operation failed" },
      ?_, rfl, rfl, rfl⟩
    rw [whisper_v2_wait opts env fuel hsrc hsubmit hwait, hrun, hfk, hstep]
  · intro env wt msg i fuel ht hs hb
    exact pollLoop_continue env wt msg i fuel ht hs
      (by rw [hb]; decide) (by rw [hb]; decide) (by rw [hb]; decide)
      (by rw [hb]; decide)

/-- Claim C7: a result object returned by `LLMWhispererClientV2.whisper`
never carries both the legacy `statusCode` field and the canonical
`status_code` field; and when both fields are populated before
reconciliation, the canonical one wins and the legacy one is removed. -/
theorem C7_single_status_code_field :
    (∀ (opts : WhisperOptionsV2) (env : WhisperEnvV2) (fuel : Nat)
      (m : WhisperResult),
      whisper_v2 opts env fuel = some (.ok (some m)) →
      ¬(m.statusCode.isSome = true ∧ m.status_code.isSome = true)) ∧
    (∀ m : WhisperResult, m.status_code.isSome = true →
      m.statusCode.isSome = true →
      (reconcile m).status_code = m.status_code ∧
      (reconcile m).statusCode = none) := by
  constructor
  · intro opts env fuel m h
    rw [whisper_v2] at h
    by_cases hsrc : opts.url = "" ∧ opts.filePath = ""
    · rw [if_pos hsrc] at h
      simp at h
    · rw [if_neg hsrc] at h
      cases hsub : env.submitStatus with
      | none => rw [hsub] at h; simp at h
      | some s =>
        rw [hsub] at h
        by_cases hv : validStatus s
        · simp only [if_neg (not_not_intro hv)] at h
          by_cases hne : s ≠ 200 ∧ s ≠ 202
          · rw [if_pos hne] at h
            simp at h
          · rw [if_neg hne] at h
            by_cases h202 : s = 202
            · rw [if_pos h202] at h
              by_cases hwc : opts.waitForCompletion = false
              · simp only [hwc, if_pos trivial] at h
                have hm : m = acceptedMessage env.submitBody := by
                  simpa using h.symm
                rw [hm]
                rintro ⟨-, habs⟩
                simp [acceptedMessage] at habs
              · simp only [if_neg hwc] at h
                cases hp : pollLoop env opts.waitTimeout
                    (acceptedMessage env.submitBody) 0 fuel with
                | none => rw [hp] at h; simp at h
                | some r =>
                  rw [hp] at h
                  cases r with
                  | error e => simp at h
                  | ok m2 =>
                    have hm : m = reconcile m2 := by simpa using h.symm
                    rw [hm]
                    rcases reconcile_no_legacy m2 with h1 | h1
                    · rintro ⟨habs, -⟩
                      rw [h1] at habs
                      simp at habs
                    · rintro ⟨-, habs⟩
                      rw [h1] at habs
                      simp at habs
            · rw [if_neg h202] at h
              simp at h
        · simp only [if_pos hv] at h
          simp at h
  · intro m h1 h2
    exact reconcile_canonical_wins m h1 h2

/-- Claim C8: a `waitForCompletion = false` submission answered with 202
returns the accepted response as-is — the body fields pass through, the
extraction payload is the empty object and the `status` field is the
remote-reported processing status — for arbitrary mode parameters. -/
theorem C8_nowait_returns_accepted_asis
    (opts : WhisperOptionsV2) (env : WhisperEnvV2) (fuel : Nat)
    (hsrc : ¬(opts.url = "" ∧ opts.filePath = ""))
    (hwait : opts.waitForCompletion = false)
    (hsubmit : env.submitStatus = some 202) :
    whisper_v2 opts env fuel =
      some (.ok (some (acceptedMessage env.submitBody))) ∧
    (acceptedMessage env.submitBody).extraction = some [] ∧
    (acceptedMessage env.submitBody).status = some env.submitBody.status ∧
    (acceptedMessage env.submitBody).statusCode = some 202 ∧
    (acceptedMessage env.submitBody).message = some env.submitBody.message ∧
    (acceptedMessage env.submitBody).whisper_hash =
      some env.submitBody.whisper_hash := by
  exact ⟨whisper_v2_nowait opts env fuel hsrc hsubmit hwait,
    rfl, rfl, rfl, rfl, rfl⟩

/-- Claim C9 (divergence witness): the webhook-management operations have no
try/catch, so a non-2xx response escapes as the raw axios rejection instead
of a `LLMWhispererClientException`; a 2xx response other than 200 (such as
the 201 a registration creates) is thrown as a `LLMWhispererClientException`
instead of being passed through; only an exact 200 is passed through with
`status_code` attached. -/
theorem C9_webhook_error_divergence :
    registerWebhook ⟨some 404, ⟨"not found"⟩, "connection reset"⟩ =
      .axiosError (some 404) (axiosFailMessage 404) ∧
    getWebhookDetails ⟨some 201, ⟨"created"⟩, "connection reset"⟩ =
      .clientError ⟨"created", 201⟩ ∧
    registerWebhook ⟨some 200, ⟨"ok"⟩, "connection reset"⟩ =
      .ok ⟨200, ⟨"ok"⟩⟩ ∧
    registerWebhook ⟨none, ⟨"ignored"⟩, "connection reset"⟩ =
      .axiosError none "connection reset" := by
  exact ⟨by decide, by decide, by decide, by decide⟩

/-- Claim C10: the `LLMWhispererClientV2` constructor never sets an
`apiTimeout` property, so the requests built by `getUsageInfo`,
`whisperStatus` and `whisperRetrieve` carry no finite per-request timeout
(`undefined * 1000` has no finite value, modelled as `none`). -/
theorem C10_v2_no_finite_request_timeout :
    ∀ (baseUrl apiKey envBaseUrlV2 envApiKey whisperHash : String),
      (mkClientV2 baseUrl apiKey envBaseUrlV2 envApiKey).apiTimeout = none ∧
      (v2GetUsageInfoRequest
        (mkClientV2 baseUrl apiKey envBaseUrlV2 envApiKey)).timeoutMs = none ∧
      (v2WhisperStatusRequest (mkClientV2 baseUrl apiKey envBaseUrlV2 envApiKey)
        whisperHash).timeoutMs = none ∧
      (v2WhisperRetrieveRequest
        (mkClientV2 baseUrl apiKey envBaseUrlV2 envApiKey)
        whisperHash).timeoutMs = none := by
  intro baseUrl apiKey envBaseUrlV2 envApiKey whisperHash
  exact ⟨rfl, rfl, rfl, rfl⟩

/-- Witness for C1 at a concrete input: the first poll reports `processed`
and the result carries the retrieved payload with status code 200. -/
theorem C1_witness :
    ∃ m : WhisperResult,
      whisper_v2 ⟨"sample.pdf", "", "high_quality", "line-printer", true, 180⟩
        envC1demo 1 = some (.ok (some m)) ∧
      m.extraction = some [("result_text", "hello")] ∧
      m.status_code = some 200 ∧
      m.status = some "processed" := by
  exact C1_wait_success_matches_retrieve
    ⟨"sample.pdf", "", "high_quality", "line-printer", true, 180⟩ envC1demo 0 1
    ⟨200, [("result_text", "hello")]⟩ (by decide) rfl rfl
    (fun j hj => absurd hj (Nat.not_lt_zero j))
    (fun j _ => Nat.zero_le _) rfl rfl (by decide) (by decide)

/-- Witness for C2 at a concrete input: the budget is already exceeded at the
first poll and the call returns the timeout result. -/
theorem C2_witness :
    ∃ m : WhisperResult,
      whisper_v2 ⟨"sample.pdf", "", "high_quality", "line-printer", true, 0⟩
        envC2demo 1 = some (.ok (some m)) ∧
      m.status_code = some (-1) ∧
      m.message = some "Whisper client operation timed out" ∧
      m.extraction = some [] := by
  exact C2_wait_timeout_returns_result
    ⟨"sample.pdf", "", "high_quality", "line-printer", true, 0⟩ envC2demo 0 1
    (by decide) rfl rfl
    (fun j hj => absurd hj (Nat.not_lt_zero j)) (by decide) (by decide)

/-- Witness for C4 at a concrete input: with both sources empty each client
throws the validation exception with statusCode -1. -/
theorem C4_witness :
    whisper_v1 ⟨"", "", 200⟩ ⟨some 200, ⟨"h", "s", "m"⟩, [], "net", "hdr"⟩ =
      .error ⟨"Either url or filePath must be provided", -1⟩ ∧
    whisper_v2 ⟨"", "", "high_quality", "line-printer", false, 180⟩
      ⟨some 200, ⟨"h", "s", "m"⟩, [], "net",
        fun _ => ⟨200, "processing", "m"⟩, ⟨200, [], "m"⟩, fun _ => 0⟩ 1 =
      some (.error ⟨"Either url or filePath must be provided", -1⟩) := by
  exact C4_missing_source_validation _ _ _ _ 1 rfl rfl rfl rfl

/-- Witness for the amended C5 at concrete inputs: a 404 response keeps the
remote status, a 204 response is rewrapped with statusCode -1. -/
theorem C5_amended_witness :
    whisper_v2 ⟨"sample.pdf", "", "high_quality", "line-printer", false, 180⟩
      ⟨some 404, ⟨"h", "s", "not found"⟩, [], "net",
        fun _ => ⟨200, "processing", "m"⟩, ⟨200, [], "m"⟩, fun _ => 0⟩ 1 =
      some (.error ⟨"not found", 404⟩) ∧
    whisper_v1 ⟨"sample.pdf", "", 200⟩
      ⟨some 204, ⟨"h", "s", "no content"⟩, [], "net", "hdr"⟩ =
      .error ⟨"no content", -1⟩ := by
  constructor
  · exact (C5_amended_remote_error.1 _ _ 1 404 (by decide) rfl).1 (by decide)
  · exact (C5_amended_remote_error.2 _ _ 204 (by decide) (by decide) rfl).2
      (by decide) (by decide) (by decide)

/-- Witness for the amended C6 at a concrete input: the first poll reports
`failed` and the call returns the fixed failure result. -/
theorem C6_amended_witness :
    ∃ m : WhisperResult,
      whisper_v2 ⟨"sample.pdf", "", "high_quality", "line-printer", true, 180⟩
        envC6demo 1 = some (.ok (some m)) ∧
      m.status_code = some (-1) ∧
      m.message = some "Whisper client operation failed" ∧
      m.extraction = some [] := by
  exact C6_amended_failed_exits_fixed_message.1
    ⟨"sample.pdf", "", "high_quality", "line-printer", true, 180⟩ envC6demo 0 1
    (by decide) rfl rfl
    (fun j hj => absurd hj (Nat.not_lt_zero j)) (by decide) rfl rfl (by decide)

/-- Witness for C7 at a concrete input: the object returned by a no-wait 202
submission does not carry both status-code fields. -/
theorem C7_witness :
    ¬((acceptedMessage ⟨"h8", "processing", "accepted"⟩).statusCode.isSome = true ∧
      (acceptedMessage ⟨"h8", "processing", "accepted"⟩).status_code.isSome = true) := by
  exact C7_single_status_code_field.1
    ⟨"sample.pdf", "", "high_quality", "line-printer", false, 180⟩ envC8demo 1
    (acceptedMessage ⟨"h8", "processing", "accepted"⟩) (by decide)

/-- Witness for C8 at a concrete input: the accepted body passes through with
an empty extraction and the remote-reported status. -/
theorem C8_witness :
    whisper_v2 ⟨"sample.pdf", "", "form", "text", false, 180⟩ envC8demo 1 =
      some (.ok (some (acceptedMessage ⟨"h8", "processing", "accepted"⟩))) ∧
    (acceptedMessage ⟨"h8", "processing", "accepted"⟩).extraction = some [] ∧
    (acceptedMessage ⟨"h8", "processing", "accepted"⟩).status =
      some "processing" ∧
    (acceptedMessage ⟨"h8", "processing", "accepted"⟩).statusCode = some 202 ∧
    (acceptedMessage ⟨"h8", "processing", "accepted"⟩).message =
      some "accepted" ∧
    (acceptedMessage ⟨"h8", "processing", "accepted"⟩).whisper_hash =
      some "h8" := by
  exact C8_nowait_returns_accepted_asis
    ⟨"sample.pdf", "", "form", "text", false, 180⟩ envC8demo 1
    (by decide) rfl rfl

end LLMWhisperer
